import Mathlib

/-!
Shallow embedding of the huhu-api joke service (Go) and verification of its
specification claims.

Translated from the source:
- `internal/repository/joke.go` : SQLite-backed repository (modelled as a list
  of rows in rowid order; `time.Now()` as a tick counter advanced on each call;
  Go errors as a small inductive mirroring sentinel identity and `%w` wrapping).
- `internal/handler/jokes.go`   : HTTP handlers.
- `internal/middleware/auth.go` : admin gate.
- `cmd/api/main.go`             : route paths.
Storage-level failures (connection loss, I/O) are outside the model: the
storage engine itself is an external collaborator, so the handlers' 500
branches for them are unreachable here, while all logic-driven branches
(empty result sets, affected-row counts, error classification) are kept.
-/

namespace HuhuApi

/-- Go error values relevant to the repository/handler boundary.
`sqlErrNoRows` is `database/sql.ErrNoRows`; `errJokeNotFound` and `errNoJokes`
are the sentinels declared in `repository/joke.go`; `wrapped` is
`fmt.Errorf("...: %w", err)`; `fresh` is `fmt.Errorf("...")` without `%w`,
a new error value not identical to any sentinel. -/
inductive GoErr where
  | sqlErrNoRows : GoErr
  | errJokeNotFound : GoErr
  | errNoJokes : GoErr
  | wrapped : String → GoErr → GoErr
  | fresh : String → GoErr
deriving DecidableEq, BEq, Repr

/-- `errors.Is(err, target)`: compares identity, unwrapping `%w` wrappers.
A `fresh` error is a distinct allocation, so it never matches a sentinel
even when the message strings coincide. -/
def errorsIs : GoErr → GoErr → Bool
  | GoErr.wrapped _ inner, target => errorsIs inner target
  | e, target => e == target

/-- `model.Joke`. Timestamps are clock ticks (see `Store.clock`). -/
structure Joke where
  id : Int
  text : String
  createdAt : Nat
  updatedAt : Nat
deriving DecidableEq, Repr

/-- The persistent state: rows in rowid (insertion) order, the AUTOINCREMENT
counter, and a clock advanced by one on each `time.Now()` call. -/
structure Store where
  jokes : List Joke
  nextId : Int
  clock : Nat
deriving DecidableEq, Repr

/-- A freshly initialized database: no rows, ids start at 1. -/
def emptyStore : Store := { jokes := [], nextId := 1, clock := 0 }

namespace SQLiteJokeRepository

/-- `SELECT ... FROM jokes WHERE id = ?`; on `sql.ErrNoRows` the source
returns `fmt.Errorf("joke not found: %w", err)` wrapping `sql.ErrNoRows`
(not the sentinel `ErrJokeNotFound`). -/
def GetJoke (s : Store) (id : Int) : Except GoErr Joke :=
  match s.jokes.find? (fun j => j.id == id) with
  | some j => Except.ok j
  | none => Except.error (GoErr.wrapped "joke not found" GoErr.sqlErrNoRows)

/-- `SELECT ... ORDER BY RANDOM() LIMIT 1`. The random choice is an explicit
`pick` parameter; any row is reachable. On an empty table the source returns
`fmt.Errorf("joke not found: %w", err)` wrapping `sql.ErrNoRows`. -/
def GetRandomJoke (s : Store) (pick : Nat) : Except GoErr Joke :=
  match s.jokes.get? (pick % s.jokes.length) with
  | some j => Except.ok j
  | none => Except.error (GoErr.wrapped "joke not found" GoErr.sqlErrNoRows)

/-- `SELECT ... LIMIT ? OFFSET ?` into a slice initialized with
`make([]*model.Joke, 0)`. The `Option` is the Go slice's nil-ness: the
source always returns a non-nil (`some`) slice on success. SQLite treats a
negative LIMIT as "no limit" and a negative OFFSET as 0. -/
def ListJokes (s : Store) (limit offset : Int) : Option (List Joke) :=
  let rest := s.jokes.drop offset.toNat
  some (if limit < 0 then rest else rest.take limit.toNat)

/-- `INSERT INTO jokes (text, created_at, updated_at) VALUES (?, ?, ?)` with
`time.Now().UTC()` evaluated twice, left to right: `created_at` gets the
first reading and `updated_at` the second. Returns `LastInsertId`. -/
def CreateJoke (s : Store) (joke : Joke) : Int × Store :=
  let createdAt := s.clock
  let updatedAt := s.clock + 1
  let id := s.nextId
  (id, { jokes := s.jokes ++ [{ id := id, text := joke.text,
                                createdAt := createdAt, updatedAt := updatedAt }]
       , nextId := s.nextId + 1
       , clock := s.clock + 2 })

/-- `UPDATE jokes SET text = ?, updated_at = ? WHERE id = ?`; zero rows
affected yields `fmt.Errorf("joke not found")` — a fresh error value, not
the sentinel `ErrJokeNotFound`. -/
def UpdateJoke (s : Store) (joke : Joke) : Except GoErr Store :=
  let now := s.clock
  if s.jokes.any (fun j => j.id == joke.id) then
    Except.ok { s with
      jokes := s.jokes.map (fun j =>
        if j.id == joke.id then { j with text := joke.text, updatedAt := now } else j)
      clock := s.clock + 1 }
  else Except.error (GoErr.fresh "joke not found")

/-- `DELETE FROM jokes WHERE id = ?`; zero rows affected yields
`fmt.Errorf("joke not found")` — a fresh error value, not the sentinel. -/
def DeleteJoke (s : Store) (id : Int) : Except GoErr Store :=
  let remaining := s.jokes.filter (fun j => !(j.id == id))
  if remaining.length == s.jokes.length then
    Except.error (GoErr.fresh "joke not found")
  else Except.ok { s with jokes := remaining }

/-- `SELECT COUNT(*) FROM jokes`. -/
def CountJokes (s : Store) : Int := Int.ofNat s.jokes.length

end SQLiteJokeRepository

example : SQLiteJokeRepository.GetJoke emptyStore 1
    = Except.error (GoErr.wrapped "joke not found" GoErr.sqlErrNoRows) := rfl

example : errorsIs (GoErr.wrapped "joke not found" GoErr.sqlErrNoRows)
    GoErr.errJokeNotFound = false := rfl

example : errorsIs (GoErr.fresh "joke not found") GoErr.errJokeNotFound = false := rfl

/-- JSON values, for the wire shapes the handlers marshal. -/
inductive Json where
  | null : Json
  | str : String → Json
  | num : Int → Json
  | arr : List Json → Json
  | obj : List (String × Json) → Json
deriving Repr

/-- An HTTP response body: empty (204), plain text (`http.Error`), or JSON. -/
inductive Body where
  | empty : Body
  | text : String → Body
  | json : Json → Body
deriving Repr

/-- The observable parts of an HTTP response. -/
structure Response where
  status : Nat
  body : Body
  location : Option String
deriving Repr

/-- `encoding/json` marshalling of a `model.Joke` (timestamps as ticks). -/
def jokeToJson (j : Joke) : Json :=
  Json.obj [("id", Json.num j.id), ("joke", Json.str j.text),
            ("created_at", Json.num (Int.ofNat j.createdAt)),
            ("updated_at", Json.num (Int.ofNat j.updatedAt))]

/-- Marshalling of a Go `[]*model.Joke`: a nil slice encodes as `null`, a
non-nil slice (even empty) as a JSON array. -/
def sliceToJson (s : Option (List Joke)) : Json :=
  match s with
  | none => Json.null
  | some l => Json.arr (l.map jokeToJson)

/-- `respondWithJSON` from `handler/jokes.go` (marshalling of the payloads
built by the handlers never fails, so that branch is dead). -/
def respondWithJSON (code : Nat) (payload : Json) : Response :=
  { status := code, body := Body.json payload, location := none }

/-- `respondWithError`: JSON body of shape `{"error": message}`. -/
def respondWithError (code : Nat) (message : String) : Response :=
  respondWithJSON code (Json.obj [("error", Json.str message)])

/-- `http.Error(w, message, code)`: plain-text body `message ++ "\n"`. -/
def httpError (code : Nat) (message : String) : Response :=
  { status := code, body := Body.text (message ++ "\n"), location := none }

/-- `middleware.Unauthorized`. -/
def Unauthorized : String := "Unauthorized"

/-- `middleware.AdminAuth`: `key` is the `Admin-API-Key` header value
(`""` when absent); a missing or mismatched key short-circuits with
`http.Error(w, Unauthorized, 401)` before the inner handler runs. -/
def AdminAuth (apiKey : String) (key : String) (next : Response) : Response :=
  if key = "" then httpError 401 Unauthorized
  else if key ≠ apiKey then httpError 401 Unauthorized
  else next

/-- Digit-string value; `none` on a non-digit or an empty string. -/
def digitsValAux : List Char → Nat → Option Nat
  | [], acc => some acc
  | c :: rest, acc =>
    if c.isDigit then digitsValAux rest (acc * 10 + (c.toNat - 48)) else none

/-- Value of a non-empty all-digit character list. -/
def digitsVal : List Char → Option Nat
  | [] => none
  | cs => digitsValAux cs 0

/-- `strconv.ParseInt(s, 10, 64)` (and `strconv.Atoi` on a 64-bit platform):
optional sign, at least one digit, must fit in int64; `none` models a
non-nil error (syntax or range). -/
def goParseInt (s : String) : Option Int :=
  let signed : Int × List Char :=
    match s.toList with
    | '+' :: rest => (1, rest)
    | '-' :: rest => (-1, rest)
    | rest => (1, rest)
  match digitsVal signed.2 with
  | none => none
  | some n =>
    let v : Int := signed.1 * Int.ofNat n
    if v < -(2 ^ 63) ∨ 2 ^ 63 ≤ v then none else some v

example : goParseInt "1" = some 1 := rfl
example : goParseInt "abc" = none := rfl
example : goParseInt "" = none := rfl
example : goParseInt "-5" = some (-5) := rfl
example : goParseInt "99999999999999999999" = none := rfl

/-- `handler.CreateJokeRequest`: the decoded body of a create/update request
(a missing `text` field decodes to `""`). -/
structure CreateJokeRequest where
  text : String
deriving Repr

namespace JokeHandler

/-- `GET /api/joke/{id}` (`JokeHandler.GetJoke` in `handler/jokes.go`). -/
def GetJoke (s : Store) (idParam : String) : Response :=
  match goParseInt idParam with
  | none => respondWithError 400 "Invalid joke ID"
  | some id =>
    match SQLiteJokeRepository.GetJoke s id with
    | Except.error e =>
      if errorsIs e GoErr.errJokeNotFound then respondWithError 404 "Joke not found"
      else respondWithError 500 "Failed to retrieve joke"
    | Except.ok joke => respondWithJSON 200 (jokeToJson joke)

/-- `GET /api/joke/random` (`JokeHandler.GetRandomJoke`). -/
def GetRandomJoke (s : Store) (pick : Nat) : Response :=
  match SQLiteJokeRepository.GetRandomJoke s pick with
  | Except.error e =>
    if errorsIs e GoErr.errNoJokes then respondWithError 404 "No jokes available"
    else respondWithError 500 "Failed to retrieve random joke"
  | Except.ok joke => respondWithJSON 200 (jokeToJson joke)

/-- `GET /api/joke/` (`JokeHandler.ListJokes`). `limitParam`/`offsetParam`
are the raw query values (`""` when absent). -/
def ListJokes (s : Store) (limitParam offsetParam : String) : Response :=
  let limit : Int :=
    if limitParam ≠ "" then
      match goParseInt limitParam with
      | some parsedLimit => if 0 < parsedLimit then parsedLimit else 10
      | none => 10
    else 10
  let offset : Int :=
    if offsetParam ≠ "" then
      match goParseInt offsetParam with
      | some parsedOffset => if 0 ≤ parsedOffset then parsedOffset else 0
      | none => 0
    else 0
  let jokes := SQLiteJokeRepository.ListJokes s limit offset
  respondWithJSON 200 (Json.obj
    [("jokes", sliceToJson jokes),
     ("total", Json.num (SQLiteJokeRepository.CountJokes s)),
     ("limit", Json.num limit),
     ("offset", Json.num offset)])

/-- `POST /api/admin/joke` (`JokeHandler.CreateJoke`). `body` is the JSON
decode result: `none` when the payload is not valid JSON. Returns the
response and the store after the request. -/
def CreateJoke (s : Store) (body : Option CreateJokeRequest) : Response × Store :=
  match body with
  | none => (respondWithError 400 "Invalid request payload", s)
  | some req =>
    if req.text = "" then (respondWithError 400 "Joke text is required", s)
    else
      let res := SQLiteJokeRepository.CreateJoke s
        { id := 0, text := req.text, createdAt := 0, updatedAt := 0 }
      match SQLiteJokeRepository.GetJoke res.2 res.1 with
      | Except.error _ => (respondWithError 500 "Joke created but failed to retrieve", res.2)
      | Except.ok createdJoke =>
        ({ respondWithJSON 201 (jokeToJson createdJoke) with
           location := some ("/api/jokes/" ++ toString res.1) }, res.2)

/-- `PUT /api/admin/joke/{id}` (`JokeHandler.UpdateJoke`). -/
def UpdateJoke (s : Store) (idParam : String) (body : Option CreateJokeRequest) :
    Response × Store :=
  match goParseInt idParam with
  | none => (respondWithError 400 "Invalid joke ID", s)
  | some id =>
    match body with
    | none => (respondWithError 400 "Invalid request payload", s)
    | some req =>
      if req.text = "" then (respondWithError 400 "Joke text is required", s)
      else
        match SQLiteJokeRepository.GetJoke s id with
        | Except.error e =>
          if errorsIs e GoErr.errJokeNotFound then (respondWithError 404 "Joke not found", s)
          else (respondWithError 500 "Failed to retrieve joke", s)
        | Except.ok _ =>
          match SQLiteJokeRepository.UpdateJoke s
              { id := id, text := req.text, createdAt := 0, updatedAt := 0 } with
          | Except.error _ => (respondWithError 500 "Failed to update joke", s)
          | Except.ok s1 =>
            match SQLiteJokeRepository.GetJoke s1 id with
            | Except.error _ =>
              (respondWithError 500 "Joke updated but failed to retrieve", s1)
            | Except.ok updatedJoke => (respondWithJSON 200 (jokeToJson updatedJoke), s1)

/-- `DELETE /api/admin/joke/{id}` (`JokeHandler.DeleteJoke`). -/
def DeleteJoke (s : Store) (idParam : String) : Response × Store :=
  match goParseInt idParam with
  | none => (respondWithError 400 "Invalid joke ID", s)
  | some id =>
    match SQLiteJokeRepository.DeleteJoke s id with
    | Except.error e =>
      if errorsIs e GoErr.errJokeNotFound then (respondWithError 404 "Joke not found", s)
      else (respondWithError 500 "Failed to delete joke", s)
    | Except.ok s1 => ({ status := 204, body := Body.empty, location := none }, s1)

end JokeHandler

/-- From the route mounting in `cmd/api/main.go`: the joke router is mounted
at `/api/joke` with `GET /{id}`, so a joke is retrievable at this path. -/
def jokeGetPath (id : Int) : String := "/api/joke/" ++ toString id

/-- Whether a response body has the error shape `{"error": "<message>"}`. -/
def errorShaped (r : Response) : Bool :=
  match r.body with
  | Body.json (Json.obj [(k, Json.str _)]) => k == "error"
  | _ => false

/-- The `key` field of a JSON-object response body, if present. -/
def responseField (r : Response) (key : String) : Option Json :=
  match r.body with
  | Body.json (Json.obj fields) =>
    match fields.find? (fun p => p.1 == key) with
    | some p => some p.2
    | none => none
  | _ => none

/-- The spec's wording for the effective list limit: "default 10, must be a
positive integer else default is retained". -/
def specEffectiveLimit (limitParam : String) : Int :=
  match goParseInt limitParam with
  | some l => if 0 < l then l else 10
  | none => 10

/-- The spec's wording for the effective list offset: "default 0, must be
non-negative else default retained". -/
def specEffectiveOffset (offsetParam : String) : Int :=
  match goParseInt offsetParam with
  | some o => if 0 ≤ o then o else 0
  | none => 0

/-- C1: the claim says a GET with an integer id matching no record responds
404; the code responds 500, because the repository wraps `sql.ErrNoRows`
instead of returning the sentinel `ErrJokeNotFound` the handler checks with
`errors.Is`. The 400 (non-integer id) and 200 (existing id) parts behave as
claimed. -/
theorem C1_get_missing_returns_500_not_404 :
    (JokeHandler.GetJoke emptyStore "7").status = 500 ∧
    (JokeHandler.GetJoke emptyStore "abc").status = 400 ∧
    (JokeHandler.GetJoke
        (SQLiteJokeRepository.CreateJoke emptyStore
          { id := 0, text := "t", createdAt := 0, updatedAt := 0 }).2 "1")
      = respondWithJSON 200
          (jokeToJson { id := 1, text := "t", createdAt := 0, updatedAt := 1 }) :=
  ⟨rfl, rfl, rfl⟩

/-- C2: the claim says GET /api/joke/random on an empty store responds 404;
the code responds 500, because the repository wraps `sql.ErrNoRows` instead
of returning the sentinel `ErrNoJokes` the handler checks. After creating
one joke, the random endpoint does respond 200 with that joke for every
random pick. -/
theorem C2_random_empty_returns_500_not_404 :
    (JokeHandler.GetRandomJoke emptyStore 0).status = 500 ∧
    errorShaped (JokeHandler.GetRandomJoke emptyStore 0) = true ∧
    (∀ pick,
      JokeHandler.GetRandomJoke
          (SQLiteJokeRepository.CreateJoke emptyStore
            { id := 0, text := "why did...", createdAt := 0, updatedAt := 0 }).2 pick
        = respondWithJSON 200
            (jokeToJson { id := 1, text := "why did...", createdAt := 0, updatedAt := 1 })) := by
  refine ⟨rfl, rfl, fun pick => ?_⟩
  simp [JokeHandler.GetRandomJoke, SQLiteJokeRepository.GetRandomJoke,
    SQLiteJokeRepository.CreateJoke, emptyStore, Nat.mod_one]

/-- C3: the claim says an authorized DELETE with an id matching no record
responds 404; the code responds 500, because the repository reports zero
affected rows with a fresh `fmt.Errorf("joke not found")` that is not the
sentinel `ErrJokeNotFound` the handler checks. The 400 (non-integer id)
and 204-with-removal (existing id) parts behave as claimed. -/
theorem C3_delete_missing_returns_500_not_404 :
    (JokeHandler.DeleteJoke emptyStore "7").1.status = 500 ∧
    (JokeHandler.DeleteJoke emptyStore "abc").1.status = 400 ∧
    (JokeHandler.DeleteJoke
        (SQLiteJokeRepository.CreateJoke emptyStore
          { id := 0, text := "t", createdAt := 0, updatedAt := 0 }).2 "1").1
      = { status := 204, body := Body.empty, location := none } ∧
    (JokeHandler.DeleteJoke
        (SQLiteJokeRepository.CreateJoke emptyStore
          { id := 0, text := "t", createdAt := 0, updatedAt := 0 }).2 "1").2.jokes
      = [] :=
  ⟨rfl, rfl, rfl, rfl⟩

/-- C5: the claim says a created record has `createdAt` equal to `updatedAt`;
the code evaluates `time.Now().UTC()` twice when inserting, so the stored
`createdAt` is one clock reading earlier than `updatedAt`. The same-text
and non-zero-id parts behave as claimed. -/
theorem C5_create_timestamps_differ :
    ∃ j, SQLiteJokeRepository.GetJoke
        (SQLiteJokeRepository.CreateJoke emptyStore
          { id := 0, text := "hi", createdAt := 0, updatedAt := 0 }).2
        (SQLiteJokeRepository.CreateJoke emptyStore
          { id := 0, text := "hi", createdAt := 0, updatedAt := 0 }).1
      = Except.ok j ∧
    j.text = "hi" ∧ j.id ≠ 0 ∧ j.createdAt + 1 = j.updatedAt ∧
    j.createdAt ≠ j.updatedAt :=
  ⟨{ id := 1, text := "hi", createdAt := 0, updatedAt := 1 },
   rfl, rfl, by decide, rfl, by decide⟩

/-- C6: the claim says the Location header of a successful create points at
the path from which the record is retrievable; the code sets
`/api/jokes/{id}` while the router serves the record at `/api/joke/{id}`,
so the header points at a non-existent path. The 201 status, the
re-fetched-record body, and the 400 on empty text behave as claimed. -/
theorem C6_location_header_mismatch :
    (JokeHandler.CreateJoke emptyStore (some { text := "knock knock" })).1.status = 201 ∧
    (JokeHandler.CreateJoke emptyStore (some { text := "knock knock" })).1.location
      = some "/api/jokes/1" ∧
    jokeGetPath 1 = "/api/joke/1" ∧
    "/api/jokes/1" ≠ "/api/joke/1" ∧
    (JokeHandler.CreateJoke emptyStore (some { text := "" })).1.status = 400 ∧
    (∃ j, SQLiteJokeRepository.GetJoke
        (JokeHandler.CreateJoke emptyStore (some { text := "knock knock" })).2 1
        = Except.ok j ∧
      (JokeHandler.CreateJoke emptyStore (some { text := "knock knock" })).1.body
        = Body.json (jokeToJson j)) :=
  ⟨rfl, rfl, rfl, by decide, rfl,
   ⟨{ id := 1, text := "knock knock", createdAt := 0, updatedAt := 1 }, rfl, rfl⟩⟩

/-- Error responses built by `respondWithError` always have the error shape. -/
@[simp]
theorem errorShaped_respondWithError (c : Nat) (m : String) :
    errorShaped (respondWithError c m) = true := rfl

/-- C4 counterexample: the 401 produced by the admin authorization gate does
not carry a JSON body of shape `{"error": "<message>"}`; `http.Error` writes
the plain-text body `"Unauthorized\n"`. -/
theorem C4_admin_401_is_plain_text :
    (AdminAuth "secret" "" (respondWithJSON 200 Json.null)).status = 401 ∧
    errorShaped (AdminAuth "secret" "" (respondWithJSON 200 Json.null)) = false ∧
    (AdminAuth "secret" "" (respondWithJSON 200 Json.null)).body
      = Body.text "Unauthorized\n" :=
  ⟨rfl, rfl, rfl⟩

/-- C4 amended: every failure response produced by the joke handlers carries
a JSON body of the single shape `{"error": "<message>"}` with the mapped
status, but the 401 produced by the admin authorization gate carries the
plain-text body `"Unauthorized\n"` instead. -/
theorem C4_handler_failures_json_but_admin_401_plain :
    (∀ s idParam, 400 ≤ (JokeHandler.GetJoke s idParam).status →
      errorShaped (JokeHandler.GetJoke s idParam) = true) ∧
    (∀ s pick, 400 ≤ (JokeHandler.GetRandomJoke s pick).status →
      errorShaped (JokeHandler.GetRandomJoke s pick) = true) ∧
    (∀ s limitParam offsetParam,
      errorShaped (JokeHandler.ListJokes s limitParam offsetParam) = false ∧
      (JokeHandler.ListJokes s limitParam offsetParam).status = 200) ∧
    (∀ s body, 400 ≤ (JokeHandler.CreateJoke s body).1.status →
      errorShaped (JokeHandler.CreateJoke s body).1 = true) ∧
    (∀ s idParam body, 400 ≤ (JokeHandler.UpdateJoke s idParam body).1.status →
      errorShaped (JokeHandler.UpdateJoke s idParam body).1 = true) ∧
    (∀ s idParam, 400 ≤ (JokeHandler.DeleteJoke s idParam).1.status →
      errorShaped (JokeHandler.DeleteJoke s idParam).1 = true) ∧
    (∀ apiKey key next, (key = "" ∨ key ≠ apiKey) →
      (AdminAuth apiKey key next).status = 401 ∧
      (AdminAuth apiKey key next).body = Body.text "Unauthorized\n" ∧
      errorShaped (AdminAuth apiKey key next) = false) := by
  refine ⟨?_, ?_, ?_, ?_, ?_, ?_, ?_⟩
  · intro s idParam
    unfold JokeHandler.GetJoke
    split
    · intro _; rfl
    · split
      · split
        · intro _; rfl
        · intro _; rfl
      · intro h; simp [respondWithJSON] at h
  · intro s pick
    unfold JokeHandler.GetRandomJoke
    split
    · split
      · intro _; rfl
      · intro _; rfl
    · intro h; simp [respondWithJSON] at h
  · intro s limitParam offsetParam
    constructor <;> rfl
  · intro s body
    unfold JokeHandler.CreateJoke
    split
    · intro _; rfl
    · split
      · intro _; rfl
      · dsimp only
        split
        · intro _; rfl
        · intro h; simp [respondWithJSON] at h
  · intro s idParam body
    unfold JokeHandler.UpdateJoke
    split
    · intro _; rfl
    · split
      · intro _; rfl
      · split
        · intro _; rfl
        · split
          · split
            · intro _; rfl
            · intro _; rfl
          · split
            · intro _; rfl
            · split
              · intro _; rfl
              · intro h; simp [respondWithJSON] at h
  · intro s idParam
    unfold JokeHandler.DeleteJoke
    split
    · intro _; rfl
    · split
      · split
        · intro _; rfl
        · intro _; rfl
      · intro h; simp at h
  · intro apiKey key next hk
    unfold AdminAuth
    split
    · exact ⟨rfl, rfl, rfl⟩
    · split
      · exact ⟨rfl, rfl, rfl⟩
      · rename_i h1 h2
        rcases hk with hk | hk
        · exact absurd hk h1
        · exact absurd hk h2

/-- C4 witness: the amended theorem applied at concrete inputs, with each
hypothesis discharged. -/
theorem C4_handler_failures_json_witness :
    (400 ≤ (JokeHandler.GetJoke emptyStore "abc").status ∧
      errorShaped (JokeHandler.GetJoke emptyStore "abc") = true) ∧
    (("" : String) = "" ∨ ("" : String) ≠ "secret") ∧
    (AdminAuth "secret" "" (respondWithJSON 200 Json.null)).body
      = Body.text "Unauthorized\n" :=
  ⟨⟨by decide,
    C4_handler_failures_json_but_admin_401_plain.1 emptyStore "abc" (by decide)⟩,
   Or.inl rfl,
   (C4_handler_failures_json_but_admin_401_plain.2.2.2.2.2.2 "secret" ""
     (respondWithJSON 200 Json.null) (Or.inl rfl)).2.1⟩

/-- C7: for every list request the handler responds 200 (never an error
response), and the effective limit and offset it uses — reflected in the
`limit`/`offset` fields and in the window passed to the repository — are
exactly the spec's defaults-with-fallback values. -/
theorem C7_list_effective_params (s : Store) (limitParam offsetParam : String) :
    JokeHandler.ListJokes s limitParam offsetParam
      = respondWithJSON 200 (Json.obj
          [("jokes", sliceToJson (SQLiteJokeRepository.ListJokes s
              (specEffectiveLimit limitParam) (specEffectiveOffset offsetParam))),
           ("total", Json.num (SQLiteJokeRepository.CountJokes s)),
           ("limit", Json.num (specEffectiveLimit limitParam)),
           ("offset", Json.num (specEffectiveOffset offsetParam))]) ∧
    (JokeHandler.ListJokes s limitParam offsetParam).status = 200 ∧
    errorShaped (JokeHandler.ListJokes s limitParam offsetParam) = false := by
  refine ⟨?_, rfl, rfl⟩
  by_cases hl : limitParam = "" <;> by_cases ho : offsetParam = "" <;>
    simp [JokeHandler.ListJokes, specEffectiveLimit, specEffectiveOffset, hl, ho,
      goParseInt, digitsVal]

/-- C8: in every store state, the count reported by the counting operation
equals the length of the sequence returned by listing with that count as
limit and offset 0. -/
theorem C8_count_eq_list_length (s : Store) :
    ((SQLiteJokeRepository.ListJokes s (SQLiteJokeRepository.CountJokes s) 0).getD []).length
      = (SQLiteJokeRepository.CountJokes s).toNat := by
  simp [SQLiteJokeRepository.ListJokes, SQLiteJokeRepository.CountJokes]

/-- C9: for every list call the repository returns a non-nil (possibly
empty) slice, and the `jokes` field of every list response is a JSON array,
never `null`. -/
theorem C9_list_never_nil (s : Store) (limit offset : Int)
    (limitParam offsetParam : String) :
    (SQLiteJokeRepository.ListJokes s limit offset).isSome = true ∧
    (∃ xs, responseField (JokeHandler.ListJokes s limitParam offsetParam) "jokes"
      = some (Json.arr xs)) ∧
    responseField (JokeHandler.ListJokes s limitParam offsetParam) "jokes"
      ≠ some Json.null := by
  refine ⟨rfl, ?_, ?_⟩ <;>
    simp [JokeHandler.ListJokes, responseField, respondWithJSON, sliceToJson,
      SQLiteJokeRepository.ListJokes, List.find?]

/-- C10: an authorized create or update whose body is not valid JSON is
answered 400 and leaves the store unchanged — the handler returns before
any repository operation. -/
theorem C10_invalid_json_400_store_unchanged (s : Store) (idParam : String) :
    (JokeHandler.CreateJoke s none).1.status = 400 ∧
    (JokeHandler.CreateJoke s none).2 = s ∧
    (JokeHandler.UpdateJoke s idParam none).1.status = 400 ∧
    (JokeHandler.UpdateJoke s idParam none).2 = s := by
  refine ⟨rfl, rfl, ?_, ?_⟩ <;>
    rcases hp : goParseInt idParam with _ | id <;>
      simp [JokeHandler.UpdateJoke, hp, respondWithError, respondWithJSON]

end HuhuApi
